import Mathlib

set_option maxRecDepth 100000

/-!
Verification of the DEV-OD-Computer setup scripts
(`scripts/first_run_setup.py`, `scripts/google_auth_setup.py`,
`scripts/verify_firebase.py`) against their specification.

The scripts are linear sequences of environment reads, HTTP calls and file
writes.  They are shallowly embedded as pure Lean functions:
  * JSON values are the inductive `Json`; Python's `json.loads` is embedded
    as the executable parser `json_loads` (covering objects, arrays, strings
    with the common escapes, booleans, null and integer literals — the JSON
    subset these scripts traffic in);
  * HTTP responses are records `HttpResponse` carrying the status code, the
    already-parsed body (`response.json()`) and the raw text (`response.text`);
  * the process state (environment variables, files, directories) is the
    record `World`; external effects that the scripts only observe (token
    refresh, the Admin SDK call, the Firebase CLI, `date -Iseconds`) are
    oracle fields of `World`;
  * file writes via `open(p, 'w')` store the written content with mode
    `none` (the umask default is not tracked); `os.chmod` sets the mode.
-/

/-- JSON values, the data model shared by all three scripts. -/
inductive Json where
  | null
  | bool (b : Bool)
  | num (n : Int)
  | str (s : String)
  | arr (elems : List Json)
  | obj (fields : List (String × Json))

/-- Drop leading whitespace characters (the set stripped by Python's
`str.strip()` and skipped by `json.loads`). -/
def skipWs : List Char → List Char
  | [] => []
  | c :: cs =>
    if c = ' ' ∨ c = '\t' ∨ c = '\n' ∨ c = '\r' ∨ c = '\x0b' ∨ c = '\x0c' then skipWs cs
    else c :: cs

/-- Python's `str.strip()`: remove leading and trailing whitespace. -/
def py_strip (s : String) : String :=
  ⟨skipWs ((skipWs s.data.reverse).reverse)⟩

/-- Python's `str.startswith(pat)`. -/
def py_startswith (s pat : String) : Bool :=
  pat.data.isPrefixOf s.data

/-- Python's `str.lower()` (ASCII part, which is all these scripts compare). -/
def py_lower (s : String) : String :=
  ⟨s.data.map Char.toLower⟩

def listContainsSub (needle : List Char) : List Char → Bool
  | [] => needle.isEmpty
  | c :: cs => needle.isPrefixOf (c :: cs) || listContainsSub needle cs

/-- Python's `needle in hay` on strings (substring test). -/
def py_contains (hay needle : String) : Bool :=
  listContainsSub needle.data hay.data

/-- Parser modes for the `json.loads` embedding: a top-level value, the
members of an object, or the elements of an array. -/
inductive PMode where
  | val
  | members (acc : List (String × Json))
  | elems (acc : List Json)

/-- Parse a JSON string literal body (after the opening quote), handling the
common escapes. -/
def parseStrLit : List Char → String → Option (String × List Char)
  | [], _ => none
  | '"' :: rest, acc => some (acc, rest)
  | '\\' :: '"' :: rest, acc => parseStrLit rest (acc.push '"')
  | '\\' :: '\\' :: rest, acc => parseStrLit rest (acc.push '\\')
  | '\\' :: 'n' :: rest, acc => parseStrLit rest (acc.push '\n')
  | '\\' :: 't' :: rest, acc => parseStrLit rest (acc.push '\t')
  | '\\' :: 'r' :: rest, acc => parseStrLit rest (acc.push '\r')
  | '\\' :: '/' :: rest, acc => parseStrLit rest (acc.push '/')
  | c :: rest, acc => parseStrLit rest (acc.push c)

def takeDigits : List Char → (List Char × List Char)
  | [] => ([], [])
  | c :: cs =>
    if c.isDigit then
      let p := takeDigits cs
      (c :: p.1, p.2)
    else ([], c :: cs)

def digitsToNat (ds : List Char) : Nat :=
  ds.foldl (fun n c => n * 10 + (c.toNat - 48)) 0

/-- Fuel-indexed recursive-descent JSON parser (the core of the `json.loads`
embedding).  Fuel bounds the recursion depth; `json_loads` supplies enough
fuel for any input of the given length. -/
def parseCore : Nat → PMode → List Char → Option (Json × List Char)
  | 0, _, _ => none
  | fuel + 1, PMode.val, cs =>
    match skipWs cs with
    | [] => none
    | c :: rest =>
      if c = '\x7b' then
        match skipWs rest with
        | '\x7d' :: r2 => some (.obj [], r2)
        | _ => parseCore fuel (PMode.members []) rest
      else if c = '[' then
        match skipWs rest with
        | ']' :: r2 => some (.arr [], r2)
        | _ => parseCore fuel (PMode.elems []) rest
      else if c = '"' then
        (parseStrLit rest "").map (fun p => (.str p.1, p.2))
      else if c = 't' then
        match rest with
        | 'r' :: 'u' :: 'e' :: r2 => some (.bool true, r2)
        | _ => none
      else if c = 'f' then
        match rest with
        | 'a' :: 'l' :: 's' :: 'e' :: r2 => some (.bool false, r2)
        | _ => none
      else if c = 'n' then
        match rest with
        | 'u' :: 'l' :: 'l' :: r2 => some (.null, r2)
        | _ => none
      else if c = '-' then
        match takeDigits rest with
        | ([], _) => none
        | (ds, r2) => some (.num (-(digitsToNat ds : Int)), r2)
      else if c.isDigit then
        match takeDigits (c :: rest) with
        | ([], _) => none
        | (ds, r2) => some (.num (digitsToNat ds : Int), r2)
      else none
  | fuel + 1, PMode.members acc, cs =>
    match skipWs cs with
    | '"' :: rest =>
      match parseStrLit rest "" with
      | none => none
      | some (k, r1) =>
        match skipWs r1 with
        | ':' :: r2 =>
          match parseCore fuel PMode.val r2 with
          | none => none
          | some (v, r3) =>
            match skipWs r3 with
            | ',' :: r4 => parseCore fuel (PMode.members (acc ++ [(k, v)])) r4
            | '\x7d' :: r4 => some (.obj (acc ++ [(k, v)]), r4)
            | _ => none
        | _ => none
    | _ => none
  | fuel + 1, PMode.elems acc, cs =>
    match parseCore fuel PMode.val cs with
    | none => none
    | some (v, r1) =>
      match skipWs r1 with
      | ',' :: r2 => parseCore fuel (PMode.elems (acc ++ [v])) r2
      | ']' :: r2 => some (.arr (acc ++ [v]), r2)
      | _ => none

/-- Embedding of Python's `json.loads`: parse one value, allow surrounding
whitespace, reject trailing garbage. -/
def json_loads (s : String) : Option Json :=
  match parseCore (s.length + 1) PMode.val s.data with
  | some (j, rest) => if (skipWs rest).isEmpty then some j else none
  | none => none

def lookupField : List (String × Json) → String → Option Json
  | [], _ => none
  | (k', v) :: rest, k => if k' = k then some v else lookupField rest k

/-- Python's `d[k]` / `k in d` on a parsed JSON object: `some v` iff the key
is present.  On non-objects no key is present. -/
def jGet : Json → String → Option Json
  | .obj fields, k => lookupField fields k
  | _, _ => none

/-- Python's `d.get(k, default)`. -/
def jGetD (j : Json) (k : String) (d : Json) : Json :=
  (jGet j k).getD d

/-- Python truthiness of a JSON value (`if x:`). -/
def jTruthy : Json → Bool
  | .null => false
  | .bool b => b
  | .num n => n != 0
  | .str s => s != ""
  | .arr l => !l.isEmpty
  | .obj l => !l.isEmpty

/-- Python truthiness of an optional string (`if not x:` on a value that is
either `None` or a `str`). -/
def py_truthy_str : Option String → Bool
  | none => false
  | some s => s != ""

/-- An HTTP response as the scripts observe it: the status code, the parsed
body (`response.json()`) and the raw text (`response.text`). -/
structure HttpResponse where
  status : Nat
  body : Json
  text : String

/-- The fixed project identifier used by all three scripts. -/
def PROJECT_ID : String := "digital-workshop-hub"

/-! ## `scripts/google_auth_setup.py` -/

/-- The dict returned by `check_google_provider_status`: on HTTP 200 it has
`exists=True`, the body's `enabled`/`clientId` and the full body under
`config`; on 404 it is the absent record with `config={}`; on any other
status it has no `config` key and carries the response text under `error`.
`exists_` models the Python key `'exists'` (`exists` is reserved in Lean). -/
structure GoogleProviderStatus where
  exists_ : Bool
  enabled : Bool
  client_id : Json
  config : Option Json
  error : Option String

/-- Embedding of `check_google_provider_status` (google_auth_setup.py,
lines 108-140) as a function of the GET response. -/
def check_google_provider_status (resp : HttpResponse) : GoogleProviderStatus :=
  if resp.status = 200 then
    { exists_ := true
      enabled := jTruthy (jGetD resp.body "enabled" (.bool false))
      client_id := jGetD resp.body "clientId" (.str "")
      config := some resp.body
      error := none }
  else if resp.status = 404 then
    { exists_ := false
      enabled := false
      client_id := .str ""
      config := some (.obj [])
      error := none }
  else
    { exists_ := false
      enabled := false
      client_id := .str ""
      config := none
      error := some resp.text }

inductive HttpMethod where
  | post
  | patch

/-- A write call issued by `enable_google_provider`: the method (POST creates,
PATCH updates) and the JSON payload. -/
structure WriteCall where
  method : HttpMethod
  payload : Json

/-- The observable outcome of `enable_google_provider`: the write call it
issued (if any) and its boolean return value. -/
structure EnableResult where
  writeCall : Option WriteCall
  ok : Bool

/-- Embedding of `enable_google_provider` (google_auth_setup.py, lines
143-204).  `statusResp` is the GET used by `check_google_provider_status`,
`writeResp` the response to the POST/PATCH (consulted only if one is sent);
`env_client_id`/`env_client_secret` are `GOOGLE_OAUTH_CLIENT_ID`/
`GOOGLE_OAUTH_CLIENT_SECRET`, and `client_id`/`client_secret` the function's
optional parameters (always `None` when called from `setup_google_auth`). -/
def enable_google_provider (statusResp writeResp : HttpResponse)
    (env_client_id env_client_secret : Option String)
    (client_id client_secret : Option String) : EnableResult :=
  let status := check_google_provider_status statusResp
  if status.enabled && !(py_truthy_str client_id) then
    { writeCall := none, ok := true }
  else
    let cid := if py_truthy_str client_id then client_id else env_client_id
    let csec := if py_truthy_str client_secret then client_secret else env_client_secret
    if !(py_truthy_str cid) || !(py_truthy_str csec) then
      -- prints guidance; soft success iff the provider already exists
      { writeCall := none, ok := status.exists_ }
    else
      let payload : Json := .obj
        [("enabled", .bool true),
         ("clientId", .str (cid.getD "")),
         ("clientSecret", .str (csec.getD ""))]
      let call : WriteCall :=
        if status.exists_ then { method := .patch, payload := payload }
        else { method := .post, payload := payload }
      { writeCall := some call
        ok := writeResp.status = 200 || writeResp.status = 201 }

/-- Modelled from the spec: the three-way provider classification "absent /
present-disabled / present-enabled" (spec section 4.3) of a provider-status
GET response; `none` for any status code other than 200 and 404. -/
inductive ProviderState where
  | absent
  | presentDisabled
  | presentEnabled

/-- Modelled from the spec: classify a provider-status response into the
spec's three states (200 with `enabled` true / 200 otherwise / 404). -/
def provider_state_of (resp : HttpResponse) : Option ProviderState :=
  if resp.status = 200 then
    if jTruthy (jGetD resp.body "enabled" (.bool false)) then some .presentEnabled
    else some .presentDisabled
  else if resp.status = 404 then some .absent
  else none

/-! ## `scripts/first_run_setup.py` -/

/-- `FIREBASE_PROJECT_DIR = os.path.expanduser("~/repos/digital-workshop-hub")`
(paths are kept as the literal `~/...` strings; expansion is irrelevant to
the properties proved). -/
def FIREBASE_PROJECT_DIR : String := "~/repos/digital-workshop-hub"

def CREDENTIALS_DIR : String := "~/.config/gcloud"

def CREDENTIALS_FILE : String := CREDENTIALS_DIR ++ "/digital-workshop-hub-credentials.json"

def SENTINEL_DIR : String := "~/.config/dev-od-computer"

def SENTINEL_FILE : String := SENTINEL_DIR ++ "/setup_complete"

/-- Content of a file on disk: a JSON document written via `json.dump`
(kept as the JSON value — `json.dump` is a deterministic serializer, so
equal values mean byte-identical files) or raw text written via `write`. -/
inductive FileContent where
  | jsonC (j : Json)
  | textC (s : String)

/-- A file together with its permission bits; `mode = none` for files whose
mode was never set by `os.chmod` (left to the umask default). -/
structure FileRecord where
  content : FileContent
  mode : Option Nat

/-- The state `first_run_setup.py` acts on: the process environment, the
filesystem, plus oracles for the effects the script only observes —
the outcome of the google-auth token verification (step 2), of the Firebase
Admin SDK check (step 3), the Rules API responses (step 5), the
provider-status response (step 6), the Firebase CLI check (step 7) and the
output of `date -Iseconds` (step 8). -/
structure World where
  env : String → Option String
  files : String → Option FileRecord
  dirs : String → Bool
  googleAuthOk : Bool
  firebaseAdminOk : Bool
  releasesResp : HttpResponse
  rulesetResp : String → HttpResponse
  providerResp : HttpResponse
  firebaseCliOk : Bool
  dateOutput : String

/-- `open(p, 'w')` followed by writing `c`: creates or overwrites the file. -/
def writeF (w : World) (p : String) (c : FileContent) : World :=
  { w with files := fun q => if q = p then some { content := c, mode := none } else w.files q }

/-- `os.chmod(p, m)` (no-op in the model if the file does not exist; in the
scripts it always follows a write of `p`). -/
def chmodF (w : World) (p : String) (m : Nat) : World :=
  { w with files := fun q =>
      if q = p then
        match w.files p with
        | some r => some { content := r.content, mode := some m }
        | none => none
      else w.files q }

/-- `os.makedirs(p, exist_ok=True)`. -/
def mkdirF (w : World) (p : String) : World :=
  { w with dirs := fun q => if q = p then true else w.dirs q }

/-- `os.environ[k] = v`. -/
def setEnv (w : World) (k v : String) : World :=
  { w with env := fun q => if q = k then some v else w.env q }

/-- `json.load(open(p))`: read a file and parse it as JSON. -/
def readJsonFile (w : World) (p : String) : Option Json :=
  match w.files p with
  | some { content := .jsonC j, mode := _ } => some j
  | some { content := .textC s, mode := _ } => json_loads s
  | none => none

/-- The `required_fields` list checked by both validation sites. -/
def required_fields : List String := ["type", "project_id", "private_key", "client_email"]

/-- The `for field in required_fields: if field not in creds_data` loop:
the first missing required field, if any. -/
def firstMissingField : List String → Json → Option String
  | [], _ => none
  | f :: rest, j => if (jGet j f).isNone then some f else firstMissingField rest j

/-- `creds_data.get('type') != 'service_account'` (negated). -/
def isServiceAccountType (j : Json) : Bool :=
  match jGet j "type" with
  | some (.str s) => s = "service_account"
  | _ => false

/-- The distinguishable diagnostic outcomes of the service-account JSON
validation shared by `setup_credentials_from_secret` and the inline-JSON
branch of `check_credentials` (each corresponds to a distinct printed
error). -/
inductive CredOutcome where
  | noSecret
  | badJson
  | missingField (f : String)
  | notServiceAccount
  | ok

/-- The validation block both sites run on parsed credential JSON: the
`required_fields` loop followed by the `type == 'service_account'` check. -/
def validate_service_account (j : Json) : CredOutcome :=
  match firstMissingField required_fields j with
  | some f => .missingField f
  | none => if isServiceAccountType j then .ok else .notServiceAccount

/-- Embedding of `setup_credentials_from_secret` (first_run_setup.py, lines
34-82): returns the credentials path (if any), the diagnostic outcome
(which printed message the run produced) and the updated state. -/
def setup_credentials_from_secret (w : World) : Option String × CredOutcome × World :=
  match w.env "GOOGLE_SERVICE_ACCOUNT_JSON" with
  | none => (none, .noSecret, w)
  | some s =>
    if s = "" then (none, .noSecret, w)
    else
      match json_loads s with
      | none => (none, .badJson, w)
      | some j =>
        match validate_service_account j with
        | .ok =>
          let w1 := mkdirF w CREDENTIALS_DIR
          let w2 := writeF w1 CREDENTIALS_FILE (.jsonC j)
          let w3 := chmodF w2 CREDENTIALS_FILE 384
          let w4 := setEnv w3 "GOOGLE_APPLICATION_CREDENTIALS" CREDENTIALS_FILE
          (some CREDENTIALS_FILE, .ok, w4)
        | out => (none, out, w)

/-- Embedding of `check_credentials` (first_run_setup.py, lines 85-159):
try the `GOOGLE_SERVICE_ACCOUNT_JSON` secret first, then fall back to
`GOOGLE_APPLICATION_CREDENTIALS`, which holds either inline JSON (when its
stripped value starts with a brace) or a file path that must exist. -/
def check_credentials (w : World) : Option String × World :=
  let res := setup_credentials_from_secret w
  match res.1 with
  | some p => (some p, res.2.2)
  | none =>
    let w1 := res.2.2
    match w1.env "GOOGLE_APPLICATION_CREDENTIALS" with
    | none => (none, w1)
    | some v =>
      if v = "" then (none, w1)
      else
        let vs := py_strip v
        if py_startswith vs "\x7b" then
          match json_loads vs with
          | none => (none, w1)
          | some j =>
            match validate_service_account j with
            | .ok =>
              let w2 := mkdirF w1 CREDENTIALS_DIR
              let w3 := writeF w2 CREDENTIALS_FILE (.jsonC j)
              let w4 := chmodF w3 CREDENTIALS_FILE 384
              let w5 := setEnv w4 "GOOGLE_APPLICATION_CREDENTIALS" CREDENTIALS_FILE
              (some CREDENTIALS_FILE, w5)
            | _ => (none, w1)
        else
          if (w1.files v).isSome then (some v, w1) else (none, w1)

/-- The `firebase_config` dict written to `firebase.json`. -/
def firebase_config : Json := .obj
  [("firestore", .obj
      [("rules", .str "firestore.rules"),
       ("indexes", .str "firestore.indexes.json")]),
   ("hosting", .obj
      [("public", .str "public"),
       ("ignore", .arr [.str "firebase.json", .str "**/.*", .str "**/node_modules/**"])]),
   ("storage", .obj [("rules", .str "storage.rules")])]

/-- The `firebaserc` dict written to `.firebaserc`. -/
def firebaserc_config : Json := .obj
  [("projects", .obj [("default", .str PROJECT_ID)])]

/-- The `indexes` dict written to `firestore.indexes.json`. -/
def indexes_config : Json := .obj
  [("indexes", .arr []), ("fieldOverrides", .arr [])]

/-- The static Google OAuth login page written to public/index.html by
`create_google_login_page` (first_run_setup.py, lines 360-606); the page
body is the fixed `index_html` literal of the source. -/
def index_html : String :=
  "<!DOCTYPE html>\n<html lang=\"en\">\n<head>\n    <meta charset=\"UTF-8\">\n    <meta name=\"viewport\" content=\"width=device-width, initial-scale=1.0\">\n    <title>Digital Workshop Hub - Login</title>\n    <style>\n        * \x7b\n            margin: 0;\n            padding: 0;\n            box-sizing: border-box;\n        \x7d\n        body \x7b\n            font-family: -apple-system, BlinkMacSystemFont, \x27Segoe UI\x27, Roboto, Oxygen, Ubuntu, sans-serif;\n            background: linear-gradient(135deg, #667eea 0%, #764ba2 100%);\n            min-height: 100vh;\n            display: flex;\n            align-items: center;\n            justify-content: center;\n        \x7d\n        .login-container \x7b\n            background: white;\n            padding: 40px;\n            border-radius: 16px;\n            box-shadow: 0 20px 60px rgba(0, 0, 0, 0.3);\n            text-align: center;\n            max-width: 400px;\n            width: 90%;\n        \x7d\n        h1 \x7b\n            color: #333;\n            margin-bottom: 10px;\n            font-size: 24px;\n        \x7d\n        .subtitle \x7b\n            color: #666;\n            margin-bottom: 30px;\n            font-size: 14px;\n        \x7d\n        .google-btn \x7b\n            display: inline-flex;\n            align-items: center;\n            justify-content: center;\n            gap: 12px;\n            background: #fff;\n            border: 2px solid #ddd;\n            padding: 12px 24px;\n            border-radius: 8px;\n            cursor: pointer;\n            font-size: 16px;\n            font-weight: 500;\n            color: #333;\n            transition: all 0.3s ease;\n            width: 100%;\n        \x7d\n        .google-btn:hover \x7b\n            border-color: #4285f4;\n            box-shadow: 0 4px 12px rgba(66, 133, 244, 0.3);\n        \x7d\n        .google-btn:disabled \x7b\n            opacity: 0.6;\n            cursor: not-allowed;\n        \x7d\n        .google-icon \x7b\n            width: 20px;\n            height: 20px;\n        \x7d\n        .user-info \x7b\n            display: none;\n            text-align: left;\n            padding: 20px;\n            background: #f8f9fa;\n            border-radius: 8px;\n            margin-top: 20px;\n        \x7d\n        .user-info.show \x7b\n            display: block;\n        \x7d\n        .user-info img \x7b\n            width: 60px;\n            height: 60px;\n            border-radius: 50%;\n            margin-bottom: 10px;\n        \x7d\n        .user-info h3 \x7b\n            color: #333;\n            margin-bottom: 5px;\n        \x7d\n        .user-info p \x7b\n            color: #666;\n            font-size: 14px;\n            margin-bottom: 15px;\n        \x7d\n        .sign-out-btn \x7b\n            background: #dc3545;\n            color: white;\n            border: none;\n            padding: 10px 20px;\n            border-radius: 6px;\n            cursor: pointer;\n            font-size: 14px;\n            transition: background 0.3s ease;\n        \x7d\n        .sign-out-btn:hover \x7b\n            background: #c82333;\n        \x7d\n        .status \x7b\n            margin-top: 20px;\n            padding: 10px;\n            border-radius: 6px;\n            font-size: 14px;\n        \x7d\n        .status.error \x7b\n            background: #f8d7da;\n            color: #721c24;\n        \x7d\n        .status.success \x7b\n            background: #d4edda;\n            color: #155724;\n        \x7d\n        .status.info \x7b\n            background: #cce5ff;\n            color: #004085;\n        \x7d\n    </style>\n</head>\n<body>\n    <div class=\"login-container\">\n        <h1>Digital Workshop Hub</h1>\n        <p class=\"subtitle\">Sign in to access your workspace</p>\n        \n        <button id=\"googleSignIn\" class=\"google-btn\">\n            <svg class=\"google-icon\" viewBox=\"0 0 24 24\">\n                <path fill=\"#4285F4\" d=\"M22.56 12.25c0-.78-.07-1.53-.2-2.25H12v4.26h5.92c-.26 1.37-1.04 2.53-2.21 3.31v2.77h3.57c2.08-1.92 3.28-4.74 3.28-8.09z\"/>\n                <path fill=\"#34A853\" d=\"M12 23c2.97 0 5.46-.98 7.28-2.66l-3.57-2.77c-.98.66-2.23 1.06-3.71 1.06-2.86 0-5.29-1.93-6.16-4.53H2.18v2.84C3.99 20.53 7.7 23 12 23z\"/>\n                <path fill=\"#FBBC05\" d=\"M5.84 14.09c-.22-.66-.35-1.36-.35-2.09s.13-1.43.35-2.09V7.07H2.18C1.43 8.55 1 10.22 1 12s.43 3.45 1.18 4.93l2.85-2.22.81-.62z\"/>\n                <path fill=\"#EA4335\" d=\"M12 5.38c1.62 0 3.06.56 4.21 1.64l3.15-3.15C17.45 2.09 14.97 1 12 1 7.7 1 3.99 3.47 2.18 7.07l3.66 2.84c.87-2.6 3.3-4.53 6.16-4.53z\"/>\n            </svg>\n            Sign in with Google\n        </button>\n        \n        <div id=\"userInfo\" class=\"user-info\">\n            <img id=\"userPhoto\" src=\"\" alt=\"Profile\">\n            <h3 id=\"userName\"></h3>\n            <p id=\"userEmail\"></p>\n            <button id=\"signOut\" class=\"sign-out-btn\">Sign Out</button>\n        </div>\n        \n        <div id=\"status\" class=\"status\" style=\"display: none;\"></div>\n    </div>\n\n    <script type=\"module\">\n        import \x7b initializeApp \x7d from \x27https://www.gstatic.com/firebasejs/10.7.1/firebase-app.js\x27;\n        import \x7b getAuth, signInWithPopup, signOut, onAuthStateChanged, GoogleAuthProvider \x7d from \x27https://www.gstatic.com/firebasejs/10.7.1/firebase-auth.js\x27;\n\n        // Firebase configuration for digital-workshop-hub\n        const firebaseConfig = \x7b\n            apiKey: \"AIzaSyBxxxxxxxxxxxxxxxxxxxxxxxxxxxxxxx\",\n            authDomain: \"digital-workshop-hub.firebaseapp.com\",\n            projectId: \"digital-workshop-hub\",\n            storageBucket: \"digital-workshop-hub.appspot.com\",\n            messagingSenderId: \"000000000000\",\n            appId: \"1:000000000000:web:xxxxxxxxxxxxxxxx\"\n        \x7d;\n\n        // Initialize Firebase\n        const app = initializeApp(firebaseConfig);\n        const auth = getAuth(app);\n        const provider = new GoogleAuthProvider();\n\n        // DOM elements\n        const googleSignInBtn = document.getElementById(\x27googleSignIn\x27);\n        const userInfoDiv = document.getElementById(\x27userInfo\x27);\n        const userPhoto = document.getElementById(\x27userPhoto\x27);\n        const userName = document.getElementById(\x27userName\x27);\n        const userEmail = document.getElementById(\x27userEmail\x27);\n        const signOutBtn = document.getElementById(\x27signOut\x27);\n        const statusDiv = document.getElementById(\x27status\x27);\n\n        function showStatus(message, type) \x7b\n            statusDiv.textContent = message;\n            statusDiv.className = \x27status \x27 + type;\n            statusDiv.style.display = \x27block\x27;\n            if (type === \x27success\x27) \x7b\n                setTimeout(() => \x7b statusDiv.style.display = \x27none\x27; \x7d, 3000);\n            \x7d\n        \x7d\n\n        function updateUI(user) \x7b\n            if (user) \x7b\n                googleSignInBtn.style.display = \x27none\x27;\n                userInfoDiv.classList.add(\x27show\x27);\n                userPhoto.src = user.photoURL || \x27https://via.placeholder.com/60\x27;\n                userName.textContent = user.displayName || \x27User\x27;\n                userEmail.textContent = user.email;\n                showStatus(\x27Signed in successfully!\x27, \x27success\x27);\n            \x7d else \x7b\n                googleSignInBtn.style.display = \x27flex\x27;\n                userInfoDiv.classList.remove(\x27show\x27);\n            \x7d\n        \x7d\n\n        // Listen for auth state changes\n        onAuthStateChanged(auth, (user) => \x7b\n            updateUI(user);\n        \x7d);\n\n        // Google Sign-In\n        googleSignInBtn.addEventListener(\x27click\x27, async () => \x7b\n            googleSignInBtn.disabled = true;\n            try \x7b\n                const result = await signInWithPopup(auth, provider);\n                const credential = GoogleAuthProvider.credentialFromResult(result);\n                const token = credential.accessToken;\n                const user = result.user;\n                console.log(\x27Signed in:\x27, user.email);\n            \x7d catch (error) \x7b\n                console.error(\x27Sign-in error:\x27, error);\n                showStatus(\x27Sign-in failed: \x27 + error.message, \x27error\x27);\n            \x7d finally \x7b\n                googleSignInBtn.disabled = false;\n            \x7d\n        \x7d);\n\n        // Sign Out\n        signOutBtn.addEventListener(\x27click\x27, async () => \x7b\n            try \x7b\n                await signOut(auth);\n                showStatus(\x27Signed out successfully\x27, \x27info\x27);\n            \x7d catch (error) \x7b\n                console.error(\x27Sign-out error:\x27, error);\n                showStatus(\x27Sign-out failed: \x27 + error.message, \x27error\x27);\n            \x7d\n        \x7d);\n    </script>\n</body>\n</html>\n"

/-- Embedding of `create_google_login_page` (first_run_setup.py, lines
360-606): write the fixed login page to `public/index.html`. -/
def create_google_login_page (w : World) (project_dir : String) : World :=
  writeF w (project_dir ++ "/public/index.html") (.textC index_html)

/-- Embedding of `setup_firebase_project` (first_run_setup.py, lines
300-357): create the project directory and write `firebase.json`,
`.firebaserc`, `firestore.indexes.json`, the `public/` directory and the
login page.  The Python function always returns `True`. -/
def setup_firebase_project (w : World) (project_dir : String) : World :=
  let w1 := mkdirF w project_dir
  let w2 := writeF w1 (project_dir ++ "/firebase.json") (.jsonC firebase_config)
  let w3 := writeF w2 (project_dir ++ "/.firebaserc") (.jsonC firebaserc_config)
  let w4 := writeF w3 (project_dir ++ "/firestore.indexes.json") (.jsonC indexes_config)
  let w5 := mkdirF w4 (project_dir ++ "/public")
  create_google_login_page w5 project_dir

/-- The inner loop body of `download_firebase_rules`: one file entry of a
ruleset; writes `firestore.rules` or `storage.rules` if the release or file
name matches. -/
def process_rule_file (dir release_name : String) (w : World) (f : Json) : World :=
  let filename :=
    match jGetD f "name" (.str "") with
    | .str s => s
    | _ => ""
  let content :=
    match jGetD f "content" (.str "") with
    | .str s => s
    | _ => ""
  if py_contains (py_lower release_name) "firestore" || py_contains (py_lower filename) "firestore" then
    writeF w (dir ++ "/firestore.rules") (.textC content)
  else if py_contains (py_lower release_name) "storage" || py_contains (py_lower filename) "storage" then
    writeF w (dir ++ "/storage.rules") (.textC content)
  else w

/-- One iteration of the release loop of `download_firebase_rules`: skip
releases without a ruleset name, fetch the ruleset and process its files. -/
def process_release (net : String → HttpResponse) (dir : String) (w : World) (release : Json) : World :=
  let release_name :=
    match jGetD release "name" (.str "") with
    | .str s => s
    | _ => ""
  let ruleset_name :=
    match jGetD release "rulesetName" (.str "") with
    | .str s => s
    | _ => ""
  if ruleset_name = "" then w
  else
    let resp := net ruleset_name
    if resp.status ≠ 200 then w
    else
      match jGet resp.body "source" with
      | some src =>
        match jGet src "files" with
        | some (.arr fs) => fs.foldl (process_rule_file dir release_name) w
        | _ => w
      | none => w

/-- Embedding of `download_firebase_rules` (first_run_setup.py, lines
240-297): list the releases (from the oracle response) and download the
rules files they point at; fails only when the releases listing is not
HTTP 200. -/
def download_firebase_rules (w : World) (dir : String) : Bool × World :=
  if w.releasesResp.status ≠ 200 then (false, w)
  else
    let releases :=
      match jGetD w.releasesResp.body "releases" (.arr []) with
      | .arr l => l
      | _ => []
    (true, releases.foldl (process_release w.rulesetResp dir) w)

/-- The distinct printed classifications of `verify_google_auth_provider`
(first_run_setup.py, lines 638-685): provider enabled / exists but disabled
/ not configured (404) / status warning with the offending code. -/
inductive ProviderCheckOutput where
  | enabledOk
  | existsDisabled
  | notConfigured
  | statusWarning (code : Nat)

/-- Embedding of `verify_google_auth_provider` (first_run_setup.py, lines
638-685) as a function of the provider-status GET response: the printed
classification and the boolean return value. -/
def verify_google_auth_provider (resp : HttpResponse) : ProviderCheckOutput × Bool :=
  if resp.status = 200 then
    if jTruthy (jGetD resp.body "enabled" (.bool false)) then (.enabledOk, true)
    else (.existsDisabled, false)
  else if resp.status = 404 then (.notConfigured, false)
  else (.statusWarning resp.status, false)

/-- Embedding of `create_sentinel_file` (first_run_setup.py, lines 609-635):
create the sentinel directory, re-read the credentials file, and write the
sentinel JSON with owner-only permissions; any failure (e.g. unreadable
credentials) is a warning and returns `False`. -/
def create_sentinel_file (w : World) (creds_path : String) : Bool × World :=
  let w1 := mkdirF w SENTINEL_DIR
  match readJsonFile w1 creds_path with
  | none => (false, w1)
  | some creds =>
    let sentinel : Json := .obj
      [("setup_complete", .bool true),
       ("project_id", jGetD creds "project_id" .null),
       ("client_email", jGetD creds "client_email" .null),
       ("private_key_id", jGetD creds "private_key_id" .null),
       ("credentials_file", .str CREDENTIALS_FILE),
       ("firebase_project_dir", .str FIREBASE_PROJECT_DIR),
       ("setup_timestamp", .str w1.dateOutput)]
    let w2 := writeF w1 SENTINEL_FILE (.jsonC sentinel)
    let w3 := chmodF w2 SENTINEL_FILE 384
    (true, w3)

/-- Embedding of `main` of first_run_setup.py (lines 713-772): the exit code
and final state.  Steps whose outcome only produces a warning or an
informational message (Admin SDK, rules download, provider check, CLI,
sentinel) do not affect the exit code; the run aborts with exit 1 only when
credential discovery or the google-auth verification fails. -/
def first_run_main (w : World) : Nat × World :=
  let res := check_credentials w
  match res.1 with
  | none => (1, res.2)
  | some creds_path =>
    let w1 := res.2
    if !w1.googleAuthOk then (1, w1)
    else
      -- Step 3 (Admin SDK) result only prints a warning.
      let w2 := setup_firebase_project w1 FIREBASE_PROJECT_DIR
      let w3 := (download_firebase_rules w2 FIREBASE_PROJECT_DIR).2
      -- Step 6 (provider check) result only prints an informational note.
      let _ := verify_google_auth_provider w3.providerResp
      -- Step 7 (CLI check) result is not even inspected.
      let w4 := (create_sentinel_file w3 creds_path).2
      (0, w4)

/-! ## `scripts/verify_firebase.py` -/

/-- The state the read-only verifier acts on: outcomes of its three
independent checks.  `providerResp` is `none` when the provider request
itself raises (the surrounding `except` returns `False`). -/
structure VerifyWorld where
  googleAuthOk : Bool
  firebaseAdminOk : Bool
  providerResp : Option HttpResponse

/-- Embedding of verify_firebase.py's `verify_google_auth_provider` boolean
result: `True` iff the status is 200 and the body's `enabled` is truthy. -/
def vf_provider_ok (r : Option HttpResponse) : Bool :=
  match r with
  | none => false
  | some resp =>
    if resp.status = 200 then jTruthy (jGetD resp.body "enabled" (.bool false))
    else false

/-- Embedding of `main` of verify_firebase.py (lines 157-184): the three
checks run unconditionally in sequence (none is gated on another), the
printed summary reports all three results, and the exit code is 0 iff the
google-auth check and the Admin SDK check both passed.  Returns (summary,
exit code). -/
def verify_firebase_main (w : VerifyWorld) : (Bool × Bool × Bool) × Nat :=
  let google_ok := w.googleAuthOk
  let firebase_ok := w.firebaseAdminOk
  let google_provider_ok := vf_provider_ok w.providerResp
  ((google_ok, firebase_ok, google_provider_ok),
   if google_ok && firebase_ok then 0 else 1)

/-! ## The dependency-install retry pattern -/

/-- What one attempt at a dependency-guarded step observes: the dependency is
missing (`ImportError` / `FileNotFoundError`), the step succeeds, or the
step fails for another reason. -/
inductive StepAttemptResult where
  | missingDep
  | success
  | failure

/-- The retry skeleton shared by `verify_google_auth`,
`verify_firebase_admin` (first_run_setup.py, lines 190-197 and 229-233) and
`verify_firebase_cli` (lines 688-710): on a missing dependency, run one
install attempt and unconditionally re-enter the same step.  `outcome k` is
what the k-th attempt observes (attempt `k ≥ 1` happens after k install
attempts); the fuel argument bounds how many attempts we are willing to
observe, and `none` means the recursion has not terminated within that many
attempts. -/
def dependency_retry (outcome : Nat → StepAttemptResult) : Nat → Nat → Option Bool
  | 0, _ => none
  | fuel + 1, attempt =>
    match outcome attempt with
    | .success => some true
    | .failure => some false
    | .missingDep => dependency_retry outcome fuel (attempt + 1)

/-! ## Concrete sample inputs (used to exercise the theorems) -/

/-- A well-formed service-account JSON document for the fixed project. -/
def sample_creds_str : String :=
  "\x7b\"type\": \"service_account\", \"project_id\": \"digital-workshop-hub\", \"private_key\": \"-----KEY-----\", \"client_email\": \"svc@digital-workshop-hub.iam.gserviceaccount.com\"\x7d"

/-- The parse of `sample_creds_str`. -/
def sample_creds_json : Json := .obj
  [("type", .str "service_account"),
   ("project_id", .str "digital-workshop-hub"),
   ("private_key", .str "-----KEY-----"),
   ("client_email", .str "svc@digital-workshop-hub.iam.gserviceaccount.com")]

/-- A service-account JSON document missing `private_key`. -/
def sample_missing_key_str : String :=
  "\x7b\"type\": \"service_account\", \"project_id\": \"digital-workshop-hub\", \"client_email\": \"svc@digital-workshop-hub.iam.gserviceaccount.com\"\x7d"

/-- The parse of `sample_missing_key_str`. -/
def sample_missing_key_json : Json := .obj
  [("type", .str "service_account"),
   ("project_id", .str "digital-workshop-hub"),
   ("client_email", .str "svc@digital-workshop-hub.iam.gserviceaccount.com")]

/-- A starting state: empty environment and filesystem, all oracles benign. -/
def baseWorld : World :=
  { env := fun _ => none
    files := fun _ => none
    dirs := fun _ => false
    googleAuthOk := true
    firebaseAdminOk := true
    releasesResp := { status := 500, body := .null, text := "" }
    rulesetResp := fun _ => { status := 500, body := .null, text := "" }
    providerResp := { status := 404, body := .null, text := "" }
    firebaseCliOk := true
    dateOutput := "2026-10-12T00:00:00+00:00" }

/-- `GOOGLE_SERVICE_ACCOUNT_JSON` holds a valid service-account document. -/
def worldWithSecret : World :=
  { baseWorld with
    env := fun k => if k = "GOOGLE_SERVICE_ACCOUNT_JSON" then some sample_creds_str else none }

/-- `GOOGLE_SERVICE_ACCOUNT_JSON` holds JSON missing `private_key`. -/
def worldMissingKey : World :=
  { baseWorld with
    env := fun k => if k = "GOOGLE_SERVICE_ACCOUNT_JSON" then some sample_missing_key_str else none }

/-- `GOOGLE_APPLICATION_CREDENTIALS` holds inline JSON (pasted content). -/
def worldInline : World :=
  { baseWorld with
    env := fun k =>
      if k = "GOOGLE_APPLICATION_CREDENTIALS" then some ("  " ++ sample_creds_str) else none }

/-- `GOOGLE_APPLICATION_CREDENTIALS` holds a path to an existing file. -/
def worldPath : World :=
  { baseWorld with
    env := fun k =>
      if k = "GOOGLE_APPLICATION_CREDENTIALS" then some "/tmp/key.json" else none
    files := fun p =>
      if p = "/tmp/key.json" then some { content := .textC "x", mode := none } else none }

/-- An unparseable `GOOGLE_SERVICE_ACCOUNT_JSON` on top of a valid
`GOOGLE_APPLICATION_CREDENTIALS` file path. -/
def worldBadSecret : World :=
  { worldPath with
    env := fun k =>
      if k = "GOOGLE_SERVICE_ACCOUNT_JSON" then some "not json" else worldPath.env k }

/-! ## Helper lemmas -/

theorem append_ne_of_ne (d : String) {s t : String} (h : s ≠ t) : d ++ s ≠ d ++ t := by
  intro he
  apply h
  have hd : d.data ++ s.data = d.data ++ t.data := by
    have := congrArg String.data he
    simpa [String.data_append] using this
  have hst : s.data = t.data := List.append_cancel_left hd
  cases s
  cases t
  simp_all

/-- A projection of `World` that every step of a fold leaves unchanged is
unchanged by the whole fold. -/
theorem foldl_world_pres {α : Type} (π : World → α) (g : World → Json → World)
    (hg : ∀ w f, π (g w f) = π w) :
    ∀ (l : List Json) (w : World), π (l.foldl g w) = π w := by
  intro l
  induction l with
  | nil => intro w; rfl
  | cons x xs ih =>
    intro w
    simp only [List.foldl_cons]
    rw [ih, hg]

/-! ## Claim C1 -/

/-- Claim C1: the provider-status check classifies every GET response into
exactly one of three distinguishable states — absent on HTTP 404,
present-disabled on HTTP 200 with `enabled` false or missing,
present-enabled on HTTP 200 with `enabled` true — and any other status code
yields an error state (an `error` entry in `check_google_provider_status`'s
result, a status warning in `verify_google_auth_provider`'s output)
distinguishable from all three. -/
theorem C1_provider_classification :
    (∀ resp : HttpResponse, resp.status = 404 →
      check_google_provider_status resp =
        { exists_ := false, enabled := false, client_id := .str "",
          config := some (.obj []), error := none } ∧
      verify_google_auth_provider resp = (.notConfigured, false)) ∧
    (∀ resp : HttpResponse, resp.status = 200 →
      jTruthy (jGetD resp.body "enabled" (.bool false)) = false →
      (check_google_provider_status resp).exists_ = true ∧
      (check_google_provider_status resp).enabled = false ∧
      (check_google_provider_status resp).error = none ∧
      verify_google_auth_provider resp = (.existsDisabled, false)) ∧
    (∀ resp : HttpResponse, resp.status = 200 →
      jTruthy (jGetD resp.body "enabled" (.bool false)) = true →
      (check_google_provider_status resp).exists_ = true ∧
      (check_google_provider_status resp).enabled = true ∧
      (check_google_provider_status resp).error = none ∧
      verify_google_auth_provider resp = (.enabledOk, true)) ∧
    (∀ resp : HttpResponse, resp.status ≠ 200 → resp.status ≠ 404 →
      (check_google_provider_status resp).exists_ = false ∧
      (check_google_provider_status resp).error = some resp.text ∧
      verify_google_auth_provider resp = (.statusWarning resp.status, false)) ∧
    (∀ r1 r2 : HttpResponse, r1.status = 404 → r2.status = 200 →
      check_google_provider_status r1 ≠ check_google_provider_status r2) ∧
    (∀ r1 r2 : HttpResponse, r1.status = 200 → r2.status = 200 →
      jTruthy (jGetD r1.body "enabled" (.bool false)) = true →
      jTruthy (jGetD r2.body "enabled" (.bool false)) = false →
      check_google_provider_status r1 ≠ check_google_provider_status r2) ∧
    (∀ r1 r2 : HttpResponse, r1.status = 404 → r2.status ≠ 200 → r2.status ≠ 404 →
      check_google_provider_status r1 ≠ check_google_provider_status r2) ∧
    (∀ r1 r2 : HttpResponse, r1.status = 200 → r2.status ≠ 200 → r2.status ≠ 404 →
      check_google_provider_status r1 ≠ check_google_provider_status r2) := by
  refine ⟨?_, ?_, ?_, ?_, ?_, ?_, ?_, ?_⟩
  · intro resp h
    constructor
    · simp [check_google_provider_status, h]
    · simp [verify_google_auth_provider, h]
  · intro resp h hen
    refine ⟨?_, ?_, ?_, ?_⟩ <;>
      simp [check_google_provider_status, verify_google_auth_provider, h, hen]
  · intro resp h hen
    refine ⟨?_, ?_, ?_, ?_⟩ <;>
      simp [check_google_provider_status, verify_google_auth_provider, h, hen]
  · intro resp h200 h404
    refine ⟨?_, ?_, ?_⟩ <;>
      simp [check_google_provider_status, verify_google_auth_provider, h200, h404]
  · intro r1 r2 h1 h2 he
    have := congrArg GoogleProviderStatus.exists_ he
    simp [check_google_provider_status, h1, h2] at this
  · intro r1 r2 h1 h2 he1 he2 he
    have := congrArg GoogleProviderStatus.enabled he
    simp [check_google_provider_status, h1, h2, he1, he2] at this
  · intro r1 r2 h1 h2 h3 he
    have := congrArg GoogleProviderStatus.error he
    simp [check_google_provider_status, h1, h2, h3] at this
  · intro r1 r2 h1 h2 h3 he
    have := congrArg GoogleProviderStatus.exists_ he
    simp [check_google_provider_status, h1, h2, h3] at this

/-- Witness for C1 at concrete responses: a 404 yields the absent record and
the not-configured output. -/
theorem C1_witness :
    check_google_provider_status { status := 404, body := .null, text := "" } =
      { exists_ := false, enabled := false, client_id := .str "",
        config := some (.obj []), error := none } ∧
    verify_google_auth_provider { status := 404, body := .null, text := "" } =
      (.notConfigured, false) :=
  C1_provider_classification.1 { status := 404, body := .null, text := "" } rfl

theorem py_truthy_str_none : py_truthy_str none = false := rfl

/-! ## Claim C2 -/

/-- Counterexample to claim C2: the provider is present (and enabled) and
OAuth credentials are available from the environment, yet
`enable_google_provider` — called as `main`/`setup_google_auth` always call
it, with no explicit client-id argument (CLI flags are routed through the
environment) — issues no PATCH (no write call at all) and returns success:
the `status.get('enabled') and not client_id` early return fires before the
credential lookup. -/
theorem C2_counterexample :
    (enable_google_provider
        { status := 200, body := .obj [("enabled", .bool true)], text := "" }
        { status := 200, body := .null, text := "" }
        (some "id.apps.googleusercontent.com") (some "secret") none none).writeCall = none ∧
    (enable_google_provider
        { status := 200, body := .obj [("enabled", .bool true)], text := "" }
        { status := 200, body := .null, text := "" }
        (some "id.apps.googleusercontent.com") (some "secret") none none).ok = true :=
  ⟨rfl, rfl⟩

/-- Claim C2 as amended: for calls as issued by `main` (no explicit
client-id/secret arguments), when the provider is already enabled the
function returns success without any write call even if credentials are
available; when the provider is present but disabled and credentials are
available it sends PATCH with payload `{enabled: true, clientId,
clientSecret}`, succeeding iff the write response status is 200 or 201;
when the provider is absent and credentials are available it sends POST
with that payload, succeeding iff 200 or 201; and when client id or secret
is missing it makes no write call and returns success iff the provider
already exists. -/
theorem C2_enable_provider_amended :
    ∀ (statusResp writeResp : HttpResponse) (ecid ecsec : Option String),
      (provider_state_of statusResp = some .presentEnabled →
        enable_google_provider statusResp writeResp ecid ecsec none none =
          { writeCall := none, ok := true }) ∧
      (provider_state_of statusResp = some .presentDisabled →
        py_truthy_str ecid = true → py_truthy_str ecsec = true →
        (enable_google_provider statusResp writeResp ecid ecsec none none).writeCall =
          some { method := .patch,
                 payload := .obj [("enabled", .bool true),
                                  ("clientId", .str (ecid.getD "")),
                                  ("clientSecret", .str (ecsec.getD ""))] } ∧
        ((enable_google_provider statusResp writeResp ecid ecsec none none).ok = true ↔
          (writeResp.status = 200 ∨ writeResp.status = 201))) ∧
      (provider_state_of statusResp = some .absent →
        py_truthy_str ecid = true → py_truthy_str ecsec = true →
        (enable_google_provider statusResp writeResp ecid ecsec none none).writeCall =
          some { method := .post,
                 payload := .obj [("enabled", .bool true),
                                  ("clientId", .str (ecid.getD "")),
                                  ("clientSecret", .str (ecsec.getD ""))] } ∧
        ((enable_google_provider statusResp writeResp ecid ecsec none none).ok = true ↔
          (writeResp.status = 200 ∨ writeResp.status = 201))) ∧
      ((py_truthy_str ecid = false ∨ py_truthy_str ecsec = false) →
        (enable_google_provider statusResp writeResp ecid ecsec none none).writeCall = none ∧
        (enable_google_provider statusResp writeResp ecid ecsec none none).ok =
          (check_google_provider_status statusResp).exists_) := by
  intro statusResp writeResp ecid ecsec
  refine ⟨?_, ?_, ?_, ?_⟩
  · intro h
    by_cases h200 : statusResp.status = 200
    · by_cases hen : jTruthy (jGetD statusResp.body "enabled" (.bool false))
      · simp [enable_google_provider, check_google_provider_status, h200, hen, py_truthy_str]
      · simp [provider_state_of, h200, hen] at h
    · by_cases h404 : statusResp.status = 404 <;>
        simp [provider_state_of, h200, h404] at h
  · intro h hcid hcsec
    cases ecid with
    | none => simp [py_truthy_str] at hcid
    | some cid =>
      cases ecsec with
      | none => simp [py_truthy_str] at hcsec
      | some csec =>
        have hc1 : (cid != "") = true := by simpa [py_truthy_str] using hcid
        have hc2 : (csec != "") = true := by simpa [py_truthy_str] using hcsec
        by_cases h200 : statusResp.status = 200
        · by_cases hen : jTruthy (jGetD statusResp.body "enabled" (.bool false))
          · simp [provider_state_of, h200, hen] at h
          · constructor <;>
              simp [enable_google_provider, check_google_provider_status, h200, hen,
                py_truthy_str, hc1, hc2]
        · by_cases h404 : statusResp.status = 404 <;>
            simp [provider_state_of, h200, h404] at h
  · intro h hcid hcsec
    cases ecid with
    | none => simp [py_truthy_str] at hcid
    | some cid =>
      cases ecsec with
      | none => simp [py_truthy_str] at hcsec
      | some csec =>
        have hc1 : (cid != "") = true := by simpa [py_truthy_str] using hcid
        have hc2 : (csec != "") = true := by simpa [py_truthy_str] using hcsec
        by_cases h200 : statusResp.status = 200
        · by_cases hen : jTruthy (jGetD statusResp.body "enabled" (.bool false)) <;>
            simp [provider_state_of, h200, hen] at h
        · by_cases h404 : statusResp.status = 404
          · constructor <;>
              simp [enable_google_provider, check_google_provider_status, h200, h404,
                py_truthy_str, hc1, hc2]
          · simp [provider_state_of, h200, h404] at h
  · intro h
    by_cases hen : (check_google_provider_status statusResp).enabled
    · have hex : (check_google_provider_status statusResp).exists_ = true := by
        by_cases h200 : statusResp.status = 200
        · simp [check_google_provider_status, h200]
        · by_cases h404 : statusResp.status = 404 <;>
            simp [check_google_provider_status, h200, h404] at hen ⊢
      simp [enable_google_provider, hen, hex, py_truthy_str_none]
    · rcases h with h | h
      · constructor <;>
          simp [enable_google_provider, hen, h, py_truthy_str_none]
      · rcases hcid : py_truthy_str ecid with _ | _
        · constructor <;>
            simp [enable_google_provider, hen, hcid, py_truthy_str_none]
        · constructor <;>
            simp [enable_google_provider, hen, hcid, h, py_truthy_str_none]

/-- Witness for the amended C2 at concrete inputs: a present-but-disabled
provider with environment credentials gets a PATCH with the documented
payload, succeeding on a 200 write response. -/
theorem C2_amended_witness :
    (enable_google_provider
        { status := 200, body := .obj [("enabled", .bool false)], text := "" }
        { status := 200, body := .null, text := "" }
        (some "id") (some "secret") none none).writeCall =
      some { method := .patch,
             payload := .obj [("enabled", .bool true),
                              ("clientId", .str "id"),
                              ("clientSecret", .str "secret")] } ∧
    ((enable_google_provider
        { status := 200, body := .obj [("enabled", .bool false)], text := "" }
        { status := 200, body := .null, text := "" }
        (some "id") (some "secret") none none).ok = true ↔
      (({ status := 200, body := .null, text := "" } : HttpResponse).status = 200 ∨
       ({ status := 200, body := .null, text := "" } : HttpResponse).status = 201)) :=
  (C2_enable_provider_amended
      { status := 200, body := .obj [("enabled", .bool false)], text := "" }
      { status := 200, body := .null, text := "" }
      (some "id") (some "secret")).2.1 rfl rfl rfl

/-! ## Credential-discovery helper lemmas -/

theorem json_loads_empty : json_loads "" = none := rfl

/-- Successful secret-based setup: the exact shape of the state updates
(create the directory, write the JSON, chmod to 0o600 = 384, point
`GOOGLE_APPLICATION_CREDENTIALS` at the canonical path). -/
theorem setup_secret_ok (w : World) (s : String) (j : Json)
    (h1 : w.env "GOOGLE_SERVICE_ACCOUNT_JSON" = some s)
    (h2 : json_loads s = some j)
    (h3 : validate_service_account j = .ok) :
    setup_credentials_from_secret w =
      (some CREDENTIALS_FILE, .ok,
        setEnv (chmodF (writeF (mkdirF w CREDENTIALS_DIR) CREDENTIALS_FILE (.jsonC j))
          CREDENTIALS_FILE 384) "GOOGLE_APPLICATION_CREDENTIALS" CREDENTIALS_FILE) := by
  have hs : s ≠ "" := by
    intro he
    rw [he] at h2
    exact Option.noConfusion (json_loads_empty.symm.trans h2)
  unfold setup_credentials_from_secret
  rw [h1]
  simp [hs, h2, h3]

/-- A failed secret-based setup leaves the state untouched. -/
theorem setup_secret_fail_world (w : World)
    (h : (setup_credentials_from_secret w).1 = none) :
    (setup_credentials_from_secret w).2.2 = w := by
  unfold setup_credentials_from_secret at h ⊢
  cases he : w.env "GOOGLE_SERVICE_ACCOUNT_JSON" with
  | none => rfl
  | some s =>
    by_cases hs : s = ""
    · simp [hs]
    · cases hj : json_loads s with
      | none => simp [hs, hj]
      | some j =>
        cases hv : validate_service_account j with
        | ok => simp [he, hs, hj, hv] at h
        | noSecret => simp [hs, hj, hv]
        | badJson => simp [hs, hj, hv]
        | missingField f => simp [hs, hj, hv]
        | notServiceAccount => simp [hs, hj, hv]

/-- A `GOOGLE_SERVICE_ACCOUNT_JSON` value that fails to parse or fails
validation makes `setup_credentials_from_secret` return no path and leave
the state untouched. -/
theorem setup_secret_fail_of_bad (w : World) (s : String)
    (h1 : w.env "GOOGLE_SERVICE_ACCOUNT_JSON" = some s)
    (h2 : json_loads s = none ∨
      (∃ j, json_loads s = some j ∧ validate_service_account j ≠ .ok)) :
    (setup_credentials_from_secret w).1 = none ∧
    (setup_credentials_from_secret w).2.2 = w := by
  have h : (setup_credentials_from_secret w).1 = none := by
    unfold setup_credentials_from_secret
    rw [h1]
    by_cases hs : s = ""
    · simp [hs]
    · rcases h2 with h2 | ⟨j, hj, hv⟩
      · simp [hs, h2]
      · cases hvv : validate_service_account j with
        | ok => exact absurd hvv hv
        | noSecret => simp [hs, hj, hvv]
        | badJson => simp [hs, hj, hvv]
        | missingField f => simp [hs, hj, hvv]
        | notServiceAccount => simp [hs, hj, hvv]
  exact ⟨h, setup_secret_fail_world w h⟩

/-- `isServiceAccountType` holds exactly when the `type` field is the string
`"service_account"`. -/
theorem isServiceAccountType_iff (j : Json) :
    isServiceAccountType j = true ↔ jGet j "type" = some (.str "service_account") := by
  unfold isServiceAccountType
  cases h : jGet j "type" with
  | none => simp
  | some v => cases v <;> simp

/-- The shared validation block accepts exactly the JSON objects having all
four required fields with `type == "service_account"`. -/
theorem validate_ok_iff (j : Json) :
    validate_service_account j = .ok ↔
      (jGet j "type" = some (.str "service_account") ∧
       jGet j "project_id" ≠ none ∧
       jGet j "private_key" ≠ none ∧
       jGet j "client_email" ≠ none) := by
  constructor
  · intro h
    unfold validate_service_account at h
    cases hm : firstMissingField required_fields j with
    | some f => rw [hm] at h; exact absurd h (by simp)
    | none =>
      rw [hm] at h
      by_cases ht : isServiceAccountType j
      · have hty := (isServiceAccountType_iff j).1 ht
        simp only [firstMissingField, required_fields] at hm
        split_ifs at hm with a b c d
        all_goals simp_all [Option.isNone_iff_eq_none]
      · rw [if_neg ht] at h
        exact absurd h (by simp)
  · rintro ⟨ht, hp, hk, he⟩
    have hm : firstMissingField required_fields j = none := by
      simp only [firstMissingField, required_fields]
      rw [ht]
      simp [Option.isNone_iff_eq_none, hp, hk, he]
    unfold validate_service_account
    rw [hm, if_pos ((isServiceAccountType_iff j).2 ht)]

/-- JSON missing `private_key` is rejected with a missing-field diagnostic. -/
theorem validate_missing_private_key (j : Json)
    (h : jGet j "private_key" = none) :
    ∃ f, validate_service_account j = .missingField f := by
  cases hm : firstMissingField required_fields j with
  | some f =>
    refine ⟨f, ?_⟩
    unfold validate_service_account
    rw [hm]
  | none =>
    exfalso
    simp only [firstMissingField, required_fields] at hm
    split_ifs at hm
    simp_all [Option.isNone_iff_eq_none]

/-! ## Claim C3 -/

/-- Claim C3: credential discovery tries `GOOGLE_SERVICE_ACCOUNT_JSON` (as
raw JSON content) first; falling back to `GOOGLE_APPLICATION_CREDENTIALS`,
whose value is parsed as inline JSON content — never treated as a file
path — whenever its stripped text starts with a brace, and is otherwise
treated as a file path that must exist. -/
theorem C3_credential_discovery_order :
    (∀ (w : World) (s : String) (j : Json),
      w.env "GOOGLE_SERVICE_ACCOUNT_JSON" = some s →
      json_loads s = some j →
      validate_service_account j = .ok →
      (check_credentials w).1 = some CREDENTIALS_FILE) ∧
    (∀ (w : World) (v : String),
      w.env "GOOGLE_SERVICE_ACCOUNT_JSON" = none →
      w.env "GOOGLE_APPLICATION_CREDENTIALS" = some v →
      v ≠ "" →
      py_startswith (py_strip v) "\x7b" = true →
      (check_credentials w).1 =
        (match json_loads (py_strip v) with
         | some j =>
           match validate_service_account j with
           | .ok => some CREDENTIALS_FILE
           | _ => none
         | none => none)) ∧
    (∀ (w : World) (v : String),
      w.env "GOOGLE_SERVICE_ACCOUNT_JSON" = none →
      w.env "GOOGLE_APPLICATION_CREDENTIALS" = some v →
      v ≠ "" →
      py_startswith (py_strip v) "\x7b" = false →
      (check_credentials w).1 = (if (w.files v).isSome then some v else none)) := by
  refine ⟨?_, ?_, ?_⟩
  · intro w s j h1 h2 h3
    unfold check_credentials
    rw [setup_secret_ok w s j h1 h2 h3]
  · intro w v h0 h1 hv hsw
    have hset : setup_credentials_from_secret w = (none, .noSecret, w) := by
      unfold setup_credentials_from_secret
      rw [h0]
    unfold check_credentials
    rw [hset]
    cases hj : json_loads (py_strip v) with
    | none => simp [h1, hv, hsw, hj]
    | some j => cases hvv : validate_service_account j <;> simp [h1, hv, hsw, hj, hvv]
  · intro w v h0 h1 hv hsw
    have hset : setup_credentials_from_secret w = (none, .noSecret, w) := by
      unfold setup_credentials_from_secret
      rw [h0]
    unfold check_credentials
    rw [hset]
    by_cases hf : (w.files v).isSome <;> simp [h1, hv, hsw, hf]

/-- Witness for C3 at concrete inputs: a valid secret wins, inline JSON in
`GOOGLE_APPLICATION_CREDENTIALS` is parsed (and succeeds), and a plain path
value is returned as the path when the file exists. -/
theorem C3_witness :
    (check_credentials worldWithSecret).1 = some CREDENTIALS_FILE ∧
    (check_credentials worldInline).1 =
      (match json_loads (py_strip ("  " ++ sample_creds_str)) with
       | some j =>
         match validate_service_account j with
         | .ok => some CREDENTIALS_FILE
         | _ => none
       | none => none) ∧
    (check_credentials worldPath).1 =
      (if (worldPath.files "/tmp/key.json").isSome then some "/tmp/key.json" else none) := by
  refine ⟨?_, ?_, ?_⟩
  · exact C3_credential_discovery_order.1 worldWithSecret sample_creds_str sample_creds_json
      rfl rfl rfl
  · exact C3_credential_discovery_order.2.1 worldInline ("  " ++ sample_creds_str)
      rfl rfl (by decide) rfl
  · exact C3_credential_discovery_order.2.2 worldPath "/tmp/key.json"
      rfl rfl (by decide) rfl

/-! ## Claim C4 -/

/-- Claim C4: validation of credential JSON requires the fields `type`,
`project_id`, `private_key`, `client_email` to be present with
`type == "service_account"`; in particular JSON missing `private_key` is
rejected with a missing-field diagnostic and discovery returns no usable
path — in both discovery sites. -/
theorem C4_required_field_validation :
    (∀ j : Json,
      validate_service_account j = .ok ↔
        (jGet j "type" = some (.str "service_account") ∧
         jGet j "project_id" ≠ none ∧
         jGet j "private_key" ≠ none ∧
         jGet j "client_email" ≠ none)) ∧
    (∀ (w : World) (s : String) (j : Json),
      w.env "GOOGLE_SERVICE_ACCOUNT_JSON" = some s →
      json_loads s = some j →
      jGet j "private_key" = none →
      (setup_credentials_from_secret w).1 = none ∧
      (∃ f, (setup_credentials_from_secret w).2.1 = .missingField f)) ∧
    (∀ (w : World) (v : String) (j : Json),
      w.env "GOOGLE_SERVICE_ACCOUNT_JSON" = none →
      w.env "GOOGLE_APPLICATION_CREDENTIALS" = some v →
      v ≠ "" →
      py_startswith (py_strip v) "\x7b" = true →
      json_loads (py_strip v) = some j →
      jGet j "private_key" = none →
      (check_credentials w).1 = none) := by
  refine ⟨validate_ok_iff, ?_, ?_⟩
  · intro w s j h1 h2 hpk
    obtain ⟨f, hf⟩ := validate_missing_private_key j hpk
    have hs : s ≠ "" := fun he => Option.noConfusion (json_loads_empty.symm.trans (he ▸ h2))
    constructor
    · unfold setup_credentials_from_secret
      rw [h1]
      simp [hs, h2, hf]
    · refine ⟨f, ?_⟩
      unfold setup_credentials_from_secret
      rw [h1]
      simp [hs, h2, hf]
  · intro w v j h0 h1 hv hsw hj hpk
    obtain ⟨f, hf⟩ := validate_missing_private_key j hpk
    have hset : setup_credentials_from_secret w = (none, .noSecret, w) := by
      unfold setup_credentials_from_secret
      rw [h0]
    unfold check_credentials
    rw [hset]
    simp [h1, hv, hsw, hj, hf]

/-- Witness for C4 at a concrete document missing `private_key`: discovery
returns no path and reports a missing field. -/
theorem C4_witness :
    (setup_credentials_from_secret worldMissingKey).1 = none ∧
    (∃ f, (setup_credentials_from_secret worldMissingKey).2.1 = .missingField f) :=
  C4_required_field_validation.2.1 worldMissingKey sample_missing_key_str
    sample_missing_key_json rfl rfl rfl

/-! ## Claim C5 -/

/-- Claim C5: for every valid service-account JSON supplied in
`GOOGLE_SERVICE_ACCOUNT_JSON`, discovery writes the credential file at the
canonical path `CREDENTIALS_FILE` with exactly owner read/write permission
bits (0o600 = 384), with content equal to the parsed input JSON, creates
the credentials directory, and points `GOOGLE_APPLICATION_CREDENTIALS` at
the canonical path. -/
theorem C5_secret_credentials_persisted :
    ∀ (w : World) (s : String) (j : Json),
      w.env "GOOGLE_SERVICE_ACCOUNT_JSON" = some s →
      json_loads s = some j →
      validate_service_account j = .ok →
      (setup_credentials_from_secret w).1 = some CREDENTIALS_FILE ∧
      ((setup_credentials_from_secret w).2.2).files CREDENTIALS_FILE =
        some { content := .jsonC j, mode := some 384 } ∧
      ((setup_credentials_from_secret w).2.2).env "GOOGLE_APPLICATION_CREDENTIALS" =
        some CREDENTIALS_FILE ∧
      ((setup_credentials_from_secret w).2.2).dirs CREDENTIALS_DIR = true := by
  intro w s j h1 h2 h3
  rw [setup_secret_ok w s j h1 h2 h3]
  refine ⟨rfl, ?_, ?_, ?_⟩ <;> simp [setEnv, chmodF, writeF, mkdirF]

/-- Witness for C5 at the concrete sample secret. -/
theorem C5_witness :
    (setup_credentials_from_secret worldWithSecret).1 = some CREDENTIALS_FILE ∧
    ((setup_credentials_from_secret worldWithSecret).2.2).files CREDENTIALS_FILE =
      some { content := .jsonC sample_creds_json, mode := some 384 } ∧
    ((setup_credentials_from_secret worldWithSecret).2.2).env "GOOGLE_APPLICATION_CREDENTIALS" =
      some CREDENTIALS_FILE ∧
    ((setup_credentials_from_secret worldWithSecret).2.2).dirs CREDENTIALS_DIR = true :=
  C5_secret_credentials_persisted worldWithSecret sample_creds_str sample_creds_json
    rfl rfl rfl

/-! ## Claim C10 -/

/-- Claim C10: an invalid `GOOGLE_SERVICE_ACCOUNT_JSON` (unparseable, or
failing validation) does not abort discovery: `setup_credentials_from_secret`
returns no path, and `check_credentials` falls back to
`GOOGLE_APPLICATION_CREDENTIALS`, still returning a usable path from that
source. -/
theorem C10_invalid_secret_falls_back :
    ∀ (w : World) (s : String),
      w.env "GOOGLE_SERVICE_ACCOUNT_JSON" = some s →
      (json_loads s = none ∨
        (∃ j, json_loads s = some j ∧ validate_service_account j ≠ .ok)) →
      (setup_credentials_from_secret w).1 = none ∧
      (∀ v, w.env "GOOGLE_APPLICATION_CREDENTIALS" = some v → v ≠ "" →
        py_startswith (py_strip v) "\x7b" = false →
        (w.files v).isSome = true →
        (check_credentials w).1 = some v) := by
  intro w s h1 h2
  obtain ⟨hn, hw⟩ := setup_secret_fail_of_bad w s h1 h2
  refine ⟨hn, ?_⟩
  intro v hg hv hsw hf
  have hset : setup_credentials_from_secret w =
      (none, (setup_credentials_from_secret w).2.1, w) := by
    rw [Prod.ext_iff]
    refine ⟨hn, ?_⟩
    rw [Prod.ext_iff]
    exact ⟨rfl, hw⟩
  unfold check_credentials
  rw [hset]
  simp [hg, hv, hsw, hf]

/-- Witness for C10: with an unparseable secret and a valid fallback path,
discovery still returns the fallback path. -/
theorem C10_witness :
    (setup_credentials_from_secret worldBadSecret).1 = none ∧
    (check_credentials worldBadSecret).1 = some "/tmp/key.json" := by
  have h := C10_invalid_secret_falls_back worldBadSecret "not json" rfl (Or.inl rfl)
  exact ⟨h.1, h.2 "/tmp/key.json" rfl (by decide) rfl rfl⟩

/-! ## Scaffold helper lemmas -/

theorem self_ne_append (d : String) {s : String} (h : s ≠ "") : d ≠ d ++ s := by
  intro he
  apply h
  have hl := congrArg (fun x => x.data.length) he
  simp only [String.data_append, List.length_append] at hl
  have h0 : s.data.length = 0 := by omega
  cases s with
  | mk l =>
    cases l with
    | nil => rfl
    | cons a t => simp at h0

theorem scaffold_firebase_json (w : World) (dir : String) :
    (setup_firebase_project w dir).files (dir ++ "/firebase.json") =
      some { content := .jsonC firebase_config, mode := none } := by
  have h1 : dir ++ "/firebase.json" ≠ dir ++ "/public/index.html" :=
    append_ne_of_ne dir (by decide)
  have h2 : dir ++ "/firebase.json" ≠ dir ++ "/firestore.indexes.json" :=
    append_ne_of_ne dir (by decide)
  have h3 : dir ++ "/firebase.json" ≠ dir ++ "/.firebaserc" :=
    append_ne_of_ne dir (by decide)
  simp [setup_firebase_project, create_google_login_page, writeF, mkdirF, h1, h2, h3]

theorem scaffold_firebaserc (w : World) (dir : String) :
    (setup_firebase_project w dir).files (dir ++ "/.firebaserc") =
      some { content := .jsonC firebaserc_config, mode := none } := by
  have h1 : dir ++ "/.firebaserc" ≠ dir ++ "/public/index.html" :=
    append_ne_of_ne dir (by decide)
  have h2 : dir ++ "/.firebaserc" ≠ dir ++ "/firestore.indexes.json" :=
    append_ne_of_ne dir (by decide)
  simp [setup_firebase_project, create_google_login_page, writeF, mkdirF, h1, h2]

theorem scaffold_indexes (w : World) (dir : String) :
    (setup_firebase_project w dir).files (dir ++ "/firestore.indexes.json") =
      some { content := .jsonC indexes_config, mode := none } := by
  have h1 : dir ++ "/firestore.indexes.json" ≠ dir ++ "/public/index.html" :=
    append_ne_of_ne dir (by decide)
  simp [setup_firebase_project, create_google_login_page, writeF, mkdirF, h1]

theorem scaffold_index_html (w : World) (dir : String) :
    (setup_firebase_project w dir).files (dir ++ "/public/index.html") =
      some { content := .textC index_html, mode := none } := by
  simp [setup_firebase_project, create_google_login_page, writeF, mkdirF]

theorem scaffold_files_other (w : World) (dir p : String)
    (hn1 : p ≠ dir ++ "/firebase.json")
    (hn2 : p ≠ dir ++ "/.firebaserc")
    (hn3 : p ≠ dir ++ "/firestore.indexes.json")
    (hn4 : p ≠ dir ++ "/public/index.html") :
    (setup_firebase_project w dir).files p = w.files p := by
  simp [setup_firebase_project, create_google_login_page, writeF, mkdirF, hn1, hn2, hn3, hn4]

theorem scaffold_dirs_dir (w : World) (dir : String) :
    (setup_firebase_project w dir).dirs dir = true := by
  have h1 : dir ≠ dir ++ "/public" := self_ne_append dir (by decide)
  simp [setup_firebase_project, create_google_login_page, writeF, mkdirF, h1]

theorem scaffold_dirs_public (w : World) (dir : String) :
    (setup_firebase_project w dir).dirs (dir ++ "/public") = true := by
  simp [setup_firebase_project, create_google_login_page, writeF, mkdirF]

theorem scaffold_dirs_other (w : World) (dir p : String)
    (h1 : p ≠ dir) (h2 : p ≠ dir ++ "/public") :
    (setup_firebase_project w dir).dirs p = w.dirs p := by
  simp [setup_firebase_project, create_google_login_page, writeF, mkdirF, h1, h2]

/-! ## Claim C6 -/

/-- Claim C6: scaffold generation is deterministic (a pure function of the
target directory, issuing no calls to the network oracles) and idempotent:
a second run changes no file contents and no directory markers, every
generated file holding the same fixed content (`firebase.json`,
`.firebaserc`, `firestore.indexes.json` and the static login page). -/
theorem C6_scaffold_idempotent :
    ∀ (w : World) (dir : String),
      (∀ p, (setup_firebase_project (setup_firebase_project w dir) dir).files p =
        (setup_firebase_project w dir).files p) ∧
      (∀ p, (setup_firebase_project (setup_firebase_project w dir) dir).dirs p =
        (setup_firebase_project w dir).dirs p) ∧
      (setup_firebase_project w dir).files (dir ++ "/firebase.json") =
        some { content := .jsonC firebase_config, mode := none } ∧
      (setup_firebase_project w dir).files (dir ++ "/.firebaserc") =
        some { content := .jsonC firebaserc_config, mode := none } ∧
      (setup_firebase_project w dir).files (dir ++ "/firestore.indexes.json") =
        some { content := .jsonC indexes_config, mode := none } ∧
      (setup_firebase_project w dir).files (dir ++ "/public/index.html") =
        some { content := .textC index_html, mode := none } ∧
      (setup_firebase_project w dir).dirs dir = true ∧
      (setup_firebase_project w dir).dirs (dir ++ "/public") = true := by
  intro w dir
  refine ⟨?_, ?_, scaffold_firebase_json w dir, scaffold_firebaserc w dir,
    scaffold_indexes w dir, scaffold_index_html w dir,
    scaffold_dirs_dir w dir, scaffold_dirs_public w dir⟩
  · intro p
    by_cases e1 : p = dir ++ "/firebase.json"
    · subst e1
      rw [scaffold_firebase_json, scaffold_firebase_json]
    · by_cases e2 : p = dir ++ "/.firebaserc"
      · subst e2
        rw [scaffold_firebaserc, scaffold_firebaserc]
      · by_cases e3 : p = dir ++ "/firestore.indexes.json"
        · subst e3
          rw [scaffold_indexes, scaffold_indexes]
        · by_cases e4 : p = dir ++ "/public/index.html"
          · subst e4
            rw [scaffold_index_html, scaffold_index_html]
          · rw [scaffold_files_other _ _ _ e1 e2 e3 e4]
  · intro p
    by_cases e1 : p = dir
    · subst e1
      rw [scaffold_dirs_dir, scaffold_dirs_dir]
    · by_cases e2 : p = dir ++ "/public"
      · subst e2
        rw [scaffold_dirs_public, scaffold_dirs_public]
      · rw [scaffold_dirs_other _ _ _ e1 e2]

/-! ## Claim C8 -/

/-- Counterexample to claim C8: a run of the verifier in which the
credential-validity check (`verify_google_auth`) passes and the provider is
even configured and enabled, but the Firebase Admin SDK check fails (e.g.
missing IAM permissions): the process exits 1, so the exit code is not
non-zero "only when the core credential-validity check fails". -/
theorem C8_counterexample :
    verify_firebase_main
        { googleAuthOk := true, firebaseAdminOk := false,
          providerResp := some { status := 200, body := .obj [("enabled", .bool true)], text := "" } } =
      ((true, false, true), 1) := rfl

/-- Claim C8 as amended: the verifier's three checks are independent (each
outcome is reported in the summary whatever the others did), and the exit
code is 0 iff both the google-auth credential check and the Firebase Admin
SDK check pass — the provider check never affects the exit code; in
particular valid credentials with an unconfigured provider exit 0. -/
theorem C8_verifier_exit_amended :
    ∀ w : VerifyWorld,
      (verify_firebase_main w).1 =
        (w.googleAuthOk, w.firebaseAdminOk, vf_provider_ok w.providerResp) ∧
      ((verify_firebase_main w).2 = 0 ↔
        (w.googleAuthOk = true ∧ w.firebaseAdminOk = true)) ∧
      (w.googleAuthOk = true → w.firebaseAdminOk = true →
        (verify_firebase_main w).2 = 0) := by
  intro w
  refine ⟨rfl, ?_, ?_⟩
  · unfold verify_firebase_main
    cases hg : w.googleAuthOk <;> cases hf : w.firebaseAdminOk <;> simp
  · intro hg hf
    unfold verify_firebase_main
    simp [hg, hf]

/-- Witness for the amended C8: credentials valid, Admin SDK fine, provider
not configured (404) — exit code 0. -/
theorem C8_amended_witness :
    (verify_firebase_main
        { googleAuthOk := true, firebaseAdminOk := true,
          providerResp := some { status := 404, body := .null, text := "" } }).2 = 0 :=
  (C8_verifier_exit_amended
      { googleAuthOk := true, firebaseAdminOk := true,
        providerResp := some { status := 404, body := .null, text := "" } }).2.2 rfl rfl

/-! ## Claim C9 -/

/-- Counterexample to claim C9: the claim says the retry recursion
terminates after at most one retry "regardless of whether the installation
succeeds".  If that held, the step's outcome would be determined within two
attempts — yet with a dependency that stays missing (the installation never
takes effect), the recursion is still running after 2 and even after 50
attempts: each re-entry hits the same ImportError and re-enters again. -/
theorem C9_counterexample :
    dependency_retry (fun _ => .missingDep) 2 0 = none ∧
    dependency_retry (fun _ => .missingDep) 50 0 = none :=
  ⟨rfl, rfl⟩

/-- Claim C9 as amended: a missing-dependency detection triggers one install
attempt followed by one recursive re-entry of the step; when the install
makes the dependency available the step therefore finishes after exactly one
retry, but when the dependency never becomes available the recursion
re-enters without bound (it never terminates, whatever attempt budget it is
given). -/
theorem C9_retry_amended :
    (∀ (outcome : Nat → StepAttemptResult) (b : Bool),
      outcome 0 = .missingDep →
      outcome 1 = (if b then .success else .failure) →
      dependency_retry outcome 2 0 = some b) ∧
    (∀ fuel attempt, dependency_retry (fun _ => .missingDep) fuel attempt = none) := by
  constructor
  · intro outcome b h0 h1
    unfold dependency_retry
    rw [h0]
    unfold dependency_retry
    rw [h1]
    cases b <;> rfl
  · intro fuel
    induction fuel with
    | zero => intro attempt; rfl
    | succ n ih => intro attempt; exact ih (attempt + 1)

/-- Witness for the amended C9: an install that fixes the dependency lets
the step finish after one retry, while a permanently missing dependency is
still unresolved after seven attempts. -/
theorem C9_retry_witness :
    dependency_retry (fun k => if k = 0 then .missingDep else .success) 2 0 = some true ∧
    dependency_retry (fun _ => .missingDep) 7 0 = none :=
  ⟨C9_retry_amended.1 (fun k => if k = 0 then .missingDep else .success) true rfl rfl,
   C9_retry_amended.2 7 0⟩

/-! ## Rules-download preservation lemmas -/

theorem process_rule_file_files_pres (dir rn p : String)
    (h1 : p ≠ dir ++ "/firestore.rules") (h2 : p ≠ dir ++ "/storage.rules") :
    ∀ (w : World) (f : Json), (process_rule_file dir rn w f).files p = w.files p := by
  intro w f
  unfold process_rule_file
  dsimp only
  split_ifs <;> simp [writeF, h1, h2]

theorem process_rule_file_dirs_pres (dir rn : String) :
    ∀ (w : World) (f : Json), (process_rule_file dir rn w f).dirs = w.dirs := by
  intro w f
  unfold process_rule_file
  dsimp only
  split_ifs <;> simp [writeF]

theorem process_release_files_pres (net : String → HttpResponse) (dir p : String)
    (h1 : p ≠ dir ++ "/firestore.rules") (h2 : p ≠ dir ++ "/storage.rules") :
    ∀ (w : World) (r : Json), (process_release net dir w r).files p = w.files p := by
  intro w r
  unfold process_release
  dsimp only
  split
  · rfl
  · split
    · rfl
    · split
      · split
        · exact foldl_world_pres (fun ww => ww.files p) _
            (process_rule_file_files_pres dir _ p h1 h2) _ w
        · rfl
      · rfl

theorem process_release_dirs_pres (net : String → HttpResponse) (dir : String) :
    ∀ (w : World) (r : Json), (process_release net dir w r).dirs = w.dirs := by
  intro w r
  unfold process_release
  dsimp only
  split
  · rfl
  · split
    · rfl
    · split
      · split
        · exact foldl_world_pres World.dirs _ (process_rule_file_dirs_pres dir _) _ w
        · rfl
      · rfl

theorem download_files_pres (dir p : String)
    (h1 : p ≠ dir ++ "/firestore.rules") (h2 : p ≠ dir ++ "/storage.rules") :
    ∀ w : World, ((download_firebase_rules w dir).2).files p = w.files p := by
  intro w
  unfold download_firebase_rules
  by_cases h : w.releasesResp.status ≠ 200
  · rw [if_pos h]
  · rw [if_neg h]
    exact foldl_world_pres (fun ww => ww.files p) _
      (process_release_files_pres _ dir p h1 h2) _ w

theorem download_dirs_pres (dir : String) :
    ∀ w : World, ((download_firebase_rules w dir).2).dirs = w.dirs := by
  intro w
  unfold download_firebase_rules
  by_cases h : w.releasesResp.status ≠ 200
  · rw [if_pos h]
  · rw [if_neg h]
    exact foldl_world_pres World.dirs _ (process_release_dirs_pres _ dir) _ w

/-- The shape of a successful `main` run: once credential discovery hands
back a path and the google-auth check passes, the run scaffolds the project
directory, downloads the rules, and writes the sentinel, exiting 0. -/
theorem first_run_main_ok (w w1 : World) (p : String)
    (hcc : check_credentials w = (some p, w1))
    (hga : w1.googleAuthOk = true) :
    first_run_main w =
      (0, (create_sentinel_file
        ((download_firebase_rules (setup_firebase_project w1 FIREBASE_PROJECT_DIR)
            FIREBASE_PROJECT_DIR).2) p).2) := by
  unfold first_run_main
  rw [hcc]
  simp [hga]

/-! ## Claim C7 -/

/-- Claim C7: with `GOOGLE_SERVICE_ACCOUNT_JSON` holding a well-formed
service-account object whose `project_id` is `"digital-workshop-hub"`, and
the remote google-auth check succeeding, the setup orchestrator exits 0
and produces the five scaffold entries (`firebase.json`, `.firebaserc`,
`firestore.indexes.json`, the `public/` directory and `public/index.html`),
the credential file at the canonical path with mode 0o600, and a sentinel
file whose JSON records `setup_complete: true` and the same project id. -/
theorem C7_end_to_end :
    ∀ (w : World) (s : String) (j : Json),
      w.env "GOOGLE_SERVICE_ACCOUNT_JSON" = some s →
      json_loads s = some j →
      validate_service_account j = .ok →
      jGet j "project_id" = some (.str "digital-workshop-hub") →
      w.googleAuthOk = true →
      (first_run_main w).1 = 0 ∧
      (first_run_main w).2.files (FIREBASE_PROJECT_DIR ++ "/firebase.json") =
        some { content := .jsonC firebase_config, mode := none } ∧
      (first_run_main w).2.files (FIREBASE_PROJECT_DIR ++ "/.firebaserc") =
        some { content := .jsonC firebaserc_config, mode := none } ∧
      (first_run_main w).2.files (FIREBASE_PROJECT_DIR ++ "/firestore.indexes.json") =
        some { content := .jsonC indexes_config, mode := none } ∧
      (first_run_main w).2.files (FIREBASE_PROJECT_DIR ++ "/public/index.html") =
        some { content := .textC index_html, mode := none } ∧
      (first_run_main w).2.dirs FIREBASE_PROJECT_DIR = true ∧
      (first_run_main w).2.dirs (FIREBASE_PROJECT_DIR ++ "/public") = true ∧
      (first_run_main w).2.files CREDENTIALS_FILE =
        some { content := .jsonC j, mode := some 384 } ∧
      (∃ sj, (first_run_main w).2.files SENTINEL_FILE =
          some { content := .jsonC sj, mode := some 384 } ∧
        jGet sj "setup_complete" = some (.bool true) ∧
        jGet sj "project_id" = some (.str "digital-workshop-hub")) := by
  intro w s j h1 h2 h3 hpid hga
  have hset := setup_secret_ok w s j h1 h2 h3
  have hcc : check_credentials w =
      (some CREDENTIALS_FILE,
        setEnv (chmodF (writeF (mkdirF w CREDENTIALS_DIR) CREDENTIALS_FILE (.jsonC j))
          CREDENTIALS_FILE 384) "GOOGLE_APPLICATION_CREDENTIALS" CREDENTIALS_FILE) := by
    unfold check_credentials
    rw [hset]
  set wA := setEnv (chmodF (writeF (mkdirF w CREDENTIALS_DIR) CREDENTIALS_FILE (.jsonC j))
    CREDENTIALS_FILE 384) "GOOGLE_APPLICATION_CREDENTIALS" CREDENTIALS_FILE with hwA
  have hgaA : wA.googleAuthOk = true := by
    rw [hwA]
    simp [setEnv, chmodF, writeF, mkdirF, hga]
  have hmain := first_run_main_ok w wA CREDENTIALS_FILE hcc hgaA
  set wB := setup_firebase_project wA FIREBASE_PROJECT_DIR with hwB
  set wC := (download_firebase_rules wB FIREBASE_PROJECT_DIR).2 with hwC
  have hA_cred : wA.files CREDENTIALS_FILE = some { content := .jsonC j, mode := some 384 } := by
    rw [hwA]
    simp [setEnv, chmodF, writeF, mkdirF]
  have hB_cred : wB.files CREDENTIALS_FILE = some { content := .jsonC j, mode := some 384 } := by
    rw [hwB, scaffold_files_other wA FIREBASE_PROJECT_DIR CREDENTIALS_FILE
      (by decide) (by decide) (by decide) (by decide)]
    exact hA_cred
  have hC_cred : wC.files CREDENTIALS_FILE = some { content := .jsonC j, mode := some 384 } := by
    rw [hwC, download_files_pres FIREBASE_PROJECT_DIR CREDENTIALS_FILE (by decide) (by decide) wB]
    exact hB_cred
  have hC_fbj : wC.files (FIREBASE_PROJECT_DIR ++ "/firebase.json") =
      some { content := .jsonC firebase_config, mode := none } := by
    rw [hwC, download_files_pres FIREBASE_PROJECT_DIR _ (by decide) (by decide) wB, hwB]
    exact scaffold_firebase_json wA FIREBASE_PROJECT_DIR
  have hC_frc : wC.files (FIREBASE_PROJECT_DIR ++ "/.firebaserc") =
      some { content := .jsonC firebaserc_config, mode := none } := by
    rw [hwC, download_files_pres FIREBASE_PROJECT_DIR _ (by decide) (by decide) wB, hwB]
    exact scaffold_firebaserc wA FIREBASE_PROJECT_DIR
  have hC_idx : wC.files (FIREBASE_PROJECT_DIR ++ "/firestore.indexes.json") =
      some { content := .jsonC indexes_config, mode := none } := by
    rw [hwC, download_files_pres FIREBASE_PROJECT_DIR _ (by decide) (by decide) wB, hwB]
    exact scaffold_indexes wA FIREBASE_PROJECT_DIR
  have hC_ih : wC.files (FIREBASE_PROJECT_DIR ++ "/public/index.html") =
      some { content := .textC index_html, mode := none } := by
    rw [hwC, download_files_pres FIREBASE_PROJECT_DIR _ (by decide) (by decide) wB, hwB]
    exact scaffold_index_html wA FIREBASE_PROJECT_DIR
  have hC_dirs1 : wC.dirs FIREBASE_PROJECT_DIR = true := by
    rw [hwC, download_dirs_pres FIREBASE_PROJECT_DIR wB, hwB]
    exact scaffold_dirs_dir wA FIREBASE_PROJECT_DIR
  have hC_dirs2 : wC.dirs (FIREBASE_PROJECT_DIR ++ "/public") = true := by
    rw [hwC, download_dirs_pres FIREBASE_PROJECT_DIR wB, hwB]
    exact scaffold_dirs_public wA FIREBASE_PROJECT_DIR
  have hread : readJsonFile (mkdirF wC SENTINEL_DIR) CREDENTIALS_FILE = some j := by
    simp [readJsonFile, mkdirF, hC_cred]
  have hsent : create_sentinel_file wC CREDENTIALS_FILE =
      (true, chmodF (writeF (mkdirF wC SENTINEL_DIR) SENTINEL_FILE
        (.jsonC (.obj
          [("setup_complete", .bool true),
           ("project_id", jGetD j "project_id" .null),
           ("client_email", jGetD j "client_email" .null),
           ("private_key_id", jGetD j "private_key_id" .null),
           ("credentials_file", .str CREDENTIALS_FILE),
           ("firebase_project_dir", .str FIREBASE_PROJECT_DIR),
           ("setup_timestamp", .str (mkdirF wC SENTINEL_DIR).dateOutput)]))) SENTINEL_FILE 384) := by
    unfold create_sentinel_file
    dsimp only
    rw [hread]
  rw [hmain, hsent]
  refine ⟨rfl, ?_, ?_, ?_, ?_, ?_, ?_, ?_, ?_⟩
  · simp [chmodF, writeF, mkdirF, hC_fbj,
      (by decide : (FIREBASE_PROJECT_DIR ++ "/firebase.json" : String) ≠ SENTINEL_FILE)]
  · simp [chmodF, writeF, mkdirF, hC_frc,
      (by decide : (FIREBASE_PROJECT_DIR ++ "/.firebaserc" : String) ≠ SENTINEL_FILE)]
  · simp [chmodF, writeF, mkdirF, hC_idx,
      (by decide : (FIREBASE_PROJECT_DIR ++ "/firestore.indexes.json" : String) ≠ SENTINEL_FILE)]
  · simp [chmodF, writeF, mkdirF, hC_ih,
      (by decide : (FIREBASE_PROJECT_DIR ++ "/public/index.html" : String) ≠ SENTINEL_FILE)]
  · simp [chmodF, writeF, mkdirF, hC_dirs1,
      (by decide : (FIREBASE_PROJECT_DIR : String) ≠ SENTINEL_DIR)]
  · simp [chmodF, writeF, mkdirF, hC_dirs2,
      (by decide : (FIREBASE_PROJECT_DIR ++ "/public" : String) ≠ SENTINEL_DIR)]
  · simp [chmodF, writeF, mkdirF, hC_cred,
      (by decide : (CREDENTIALS_FILE : String) ≠ SENTINEL_FILE)]
  · refine ⟨.obj
      [("setup_complete", .bool true),
       ("project_id", jGetD j "project_id" .null),
       ("client_email", jGetD j "client_email" .null),
       ("private_key_id", jGetD j "private_key_id" .null),
       ("credentials_file", .str CREDENTIALS_FILE),
       ("firebase_project_dir", .str FIREBASE_PROJECT_DIR),
       ("setup_timestamp", .str (mkdirF wC SENTINEL_DIR).dateOutput)], ?_, ?_, ?_⟩
    · simp [chmodF, writeF, mkdirF]
    · simp [jGet, lookupField]
    · have houter : jGet (Json.obj
          [("setup_complete", Json.bool true),
           ("project_id", jGetD j "project_id" Json.null),
           ("client_email", jGetD j "client_email" Json.null),
           ("private_key_id", jGetD j "private_key_id" Json.null),
           ("credentials_file", Json.str CREDENTIALS_FILE),
           ("firebase_project_dir", Json.str FIREBASE_PROJECT_DIR),
           ("setup_timestamp", Json.str (mkdirF wC SENTINEL_DIR).dateOutput)]) "project_id" =
            jGetD j "project_id" Json.null := rfl
      rw [houter]
      simp only [jGetD]
      rw [hpid]
      rfl

/-- Witness for C7: running the orchestrator on the concrete sample secret
produces the scaffold, the credential file and the sentinel, and exits 0. -/
theorem C7_witness :
    (first_run_main worldWithSecret).1 = 0 ∧
    (first_run_main worldWithSecret).2.files (FIREBASE_PROJECT_DIR ++ "/firebase.json") =
      some { content := .jsonC firebase_config, mode := none } ∧
    (first_run_main worldWithSecret).2.files (FIREBASE_PROJECT_DIR ++ "/.firebaserc") =
      some { content := .jsonC firebaserc_config, mode := none } ∧
    (first_run_main worldWithSecret).2.files (FIREBASE_PROJECT_DIR ++ "/firestore.indexes.json") =
      some { content := .jsonC indexes_config, mode := none } ∧
    (first_run_main worldWithSecret).2.files (FIREBASE_PROJECT_DIR ++ "/public/index.html") =
      some { content := .textC index_html, mode := none } ∧
    (first_run_main worldWithSecret).2.dirs FIREBASE_PROJECT_DIR = true ∧
    (first_run_main worldWithSecret).2.dirs (FIREBASE_PROJECT_DIR ++ "/public") = true ∧
    (first_run_main worldWithSecret).2.files CREDENTIALS_FILE =
      some { content := .jsonC sample_creds_json, mode := some 384 } ∧
    (∃ sj, (first_run_main worldWithSecret).2.files SENTINEL_FILE =
        some { content := .jsonC sj, mode := some 384 } ∧
      jGet sj "setup_complete" = some (.bool true) ∧
      jGet sj "project_id" = some (.str "digital-workshop-hub")) :=
  C7_end_to_end worldWithSecret sample_creds_str sample_creds_json rfl rfl rfl rfl rfl
